import Mathlib

/-!
Verification development for the cuss2.ts protocol engine.

Shallow embedding of the connection layer, session controller and component
model, translated from the TypeScript sources:
  * `src/helper.ts` — `helpers.isNonCritical`, the `criticalErrors` list;
  * the `Connection` class (`_cleanBaseURL`, `sendAndGetResponse`);
  * the `Cuss2` class in `src/connection.ts` (`api.staterequest`,
    `checkRequiredComponentsAndSyncState`, `_handleWebSocketMessage`);
  * `src/models/component.ts` (`Component._call`, `enable`, `disable`,
    `cancel`, `query`, `setup`, `send`, `updateState`);
  * `src/models/Printer.ts` (combined ready/status aggregation,
    `Printer.updateState`).

JavaScript strings are embedded as `List Char`; `undefined`-able fields
become `Option`; promise outcomes become `Except`.  Asynchronous effects
that do not alter the state being reasoned about (fired-off queries,
event emissions) are recorded in explicit event/action lists.
-/

namespace Cuss2

/-- The `MessageCodes` enum from `cuss2-typescript-models`, restricted to the
members referenced in this repository (all 39 members of `criticalErrors`
in `src/helper.ts`, plus `OK`, `DATAPRESENT` and `MEDIAPRESENT`). -/
inductive MessageCode where
  | OK
  | DATAPRESENT
  | MEDIAPRESENT
  | CANCELLED
  | WRONGAPPLICATIONSTATE
  | OUTOFSEQUENCE
  | TIMEOUT
  | SESSIONTIMEOUT
  | KILLTIMEOUT
  | SOFTWAREERROR
  | CRITICALSOFTWAREERROR
  | FORMATERROR
  | LENGTHERROR
  | DATAMISSING
  | THRESHOLDERROR
  | THRESHOLDUSAGE
  | HARDWAREERROR
  | NOTREACHABLE
  | NOTRESPONDING
  | BAGGAGEFULL
  | BAGGAGEUNDETECTED
  | BAGGAGEOVERSIZED
  | BAGGAGETOOMANYBAGS
  | BAGGAGEUNEXPECTEDBAG
  | BAGGAGETOOHIGH
  | BAGGAGETOOLONG
  | BAGGAGETOOFLAT
  | BAGGAGETOOSHORT
  | BAGGAGEINVALIDDATA
  | BAGGAGEWEIGHTOUTOFRANGE
  | BAGGAGEJAMMED
  | BAGGAGEEMERGENCYSTOP
  | BAGGAGERESTLESS
  | BAGGAGETRANSPORTBUSY
  | BAGGAGEMISTRACKED
  | BAGGAGEUNEXPECTEDCHANGE
  | BAGGAGEINTERFERENCEUSER
  | BAGGAGEINTRUSIONSAFETY
  | BAGGAGENOTCONVEYABLE
  | BAGGAGEIRREGULARBAG
  | BAGGAGEVOLUMENOTDETERMINABLE
  | BAGGAGEOVERFLOWTUB
  deriving DecidableEq, Repr

open MessageCode

/-- The `criticalErrors` array from `src/helper.ts` (lines 56-96), in source
order. -/
def criticalErrors : List MessageCode :=
  [ CANCELLED, WRONGAPPLICATIONSTATE, OUTOFSEQUENCE, TIMEOUT,
    SESSIONTIMEOUT, KILLTIMEOUT, SOFTWAREERROR, CRITICALSOFTWAREERROR,
    FORMATERROR, LENGTHERROR, DATAMISSING, THRESHOLDERROR, THRESHOLDUSAGE,
    HARDWAREERROR, NOTREACHABLE, NOTRESPONDING, BAGGAGEFULL,
    BAGGAGEUNDETECTED, BAGGAGEOVERSIZED, BAGGAGETOOMANYBAGS,
    BAGGAGEUNEXPECTEDBAG, BAGGAGETOOHIGH, BAGGAGETOOLONG, BAGGAGETOOFLAT,
    BAGGAGETOOSHORT, BAGGAGEINVALIDDATA, BAGGAGEWEIGHTOUTOFRANGE,
    BAGGAGEJAMMED, BAGGAGEEMERGENCYSTOP, BAGGAGERESTLESS,
    BAGGAGETRANSPORTBUSY, BAGGAGEMISTRACKED, BAGGAGEUNEXPECTEDCHANGE,
    BAGGAGEINTERFERENCEUSER, BAGGAGEINTRUSIONSAFETY, BAGGAGENOTCONVEYABLE,
    BAGGAGEIRREGULARBAG, BAGGAGEVOLUMENOTDETERMINABLE, BAGGAGEOVERFLOWTUB ]

/-- `helpers.isNonCritical` from `src/helper.ts` (lines 51-53):
`!criticalErrors.some((s) => s == messageCode)`. -/
def isNonCritical (messageCode : MessageCode) : Bool :=
  !(criticalErrors.any (fun s => s == messageCode))

/-! ## Connection: base-URL normalization (`Connection._cleanBaseURL`)

JavaScript strings are embedded as `List Char`.  `url.split("?")[0]` is the
prefix of the string before the first `'?'`, i.e. `takeWhile (· ≠ '?')`;
`endsWith "/"` inspects the last character; `slice(0, -1)` drops it. -/

/-- `url.split("?")[0]`: the prefix of the URL before the first `'?'`. -/
def stripQuery (url : List Char) : List Char :=
  url.takeWhile (fun a => a ≠ '?')

/-- `Connection._cleanBaseURL(url)`:
remove query parameters (`url.split("?")[0]`), then remove one trailing
slash (`cleanURL.endsWith("/") ? cleanURL.slice(0, -1) : cleanURL`). -/
def cleanBaseURL (url : List Char) : List Char :=
  if (stripQuery url).getLast? = some '/' then (stripQuery url).dropLast
  else stripQuery url

/-- A JS string "ends with `//`": its last two characters are both slashes. -/
def endsWithDoubleSlash (c : List Char) : Bool :=
  (c.getLast? == some '/') && (c.dropLast.getLast? == some '/')

/-! ## Connection: `sendAndGetResponse` and response classification -/

/-- Inbound platform-data metadata as read by `Connection.sendAndGetResponse`:
`message.meta?.messageCode` may be absent, hence the `Option`. -/
structure ResponseMeta where
  messageCode : Option MessageCode
  deriving DecidableEq, Repr

/-- An inbound `PlatformData` response (only the fields this layer reads). -/
structure Response where
  meta : ResponseMeta
  deriving DecidableEq, Repr

/-- Outbound `ApplicationData` metadata as stamped by the connection. -/
structure AppDataMeta where
  requestID : List Char
  oauthToken : Option (List Char)
  deviceID : Option (List Char)
  deriving DecidableEq, Repr

/-- An outbound `ApplicationData` frame (metadata only). -/
structure AppData where
  meta : AppDataMeta
  deriving DecidableEq, Repr

/-- The all-zero sentinel device identifier. -/
def sentinelDeviceID : List Char := "00000000-0000-0000-0000-000000000000".toList

/-- Rejection reasons of `sendAndGetResponse`: the fail-fast "WebSocket is
not connected" error, and `PlatformResponseError` wrapping the full
response. -/
inductive SendError where
  | notConnected
  | platformResponseError (response : Response)
  deriving DecidableEq, Repr

/-- Result of one `sendAndGetResponse` call: the frame actually written to
the socket (if any) and the settled promise. -/
structure SendAndGetResult where
  sentFrame : Option AppData
  result : Except SendError Response
  deriving Repr

/-- `Connection.sendAndGetResponse(applicationData)` from the connection
source: fail fast when no socket exists; otherwise overwrite the token,
fill the device id when absent or the zero sentinel, write the frame, and
classify the correlated response (`arrived` stands for the inbound message
matched by the frame's `requestID`): non-critical codes resolve with the
response unchanged, everything else rejects with `PlatformResponseError`.
A response with no `messageCode` fails the `messageCode &&` truthiness
check and also rejects. -/
def sendAndGetResponse (hasSocket : Bool) (accessToken : List Char)
    (connDeviceID : Option (List Char)) (frame : AppData) (arrived : Response) :
    SendAndGetResult :=
  if !hasSocket then
    { sentFrame := none, result := .error .notConnected }
  else
    let meta := frame.meta
    let meta := { meta with oauthToken := some accessToken }
    let meta :=
      if (meta.deviceID = none ∨ meta.deviceID = some sentinelDeviceID)
          ∧ connDeviceID ≠ none then
        { meta with deviceID := connDeviceID }
      else meta
    let sent : AppData := { meta := meta }
    match arrived.meta.messageCode with
    | some mc =>
        if isNonCritical mc then
          { sentFrame := some sent, result := .ok arrived }
        else
          { sentFrame := some sent, result := .error (.platformResponseError arrived) }
    | none =>
        { sentFrame := some sent, result := .error (.platformResponseError arrived) }

/-- The `messageCode` exposed by a rejection value, as read by
`Component.disable`'s catch handler (`e.messageCode`).  Modelled from the
spec for the absent `src/models/platformResponseError.ts`: the typed
protocol-response error "wraps the full response", so its `messageCode` is
the wrapped response's result code. -/
def SendError.messageCode : SendError → Option MessageCode
  | .notConnected => none
  | .platformResponseError r => r.meta.messageCode

/-! ## Session controller: application state and `api.staterequest` -/

/-- `ApplicationStateCodes` from `cuss2-typescript-models`. -/
inductive AppState where
  | STOPPED
  | INITIALIZE
  | UNAVAILABLE
  | AVAILABLE
  | ACTIVE
  | SUSPENDED
  | DISABLED
  | RELOAD
  deriving DecidableEq, Repr

/-- Observable outcome of one `api.staterequest(state, ...)` call:
whether a state-request frame was sent, the settled promise
(`.ok none` is resolution with `undefined`), and the value of
`pendingStateChange` after the call settles. -/
structure StateRequestCall where
  sent : Bool
  result : Except SendError (Option Response)
  pendingAfter : Option AppState
  deriving Repr

/-- `api.staterequest` from the `Cuss2` session controller
(`src/connection.ts` lines 633-651): if `pendingStateChange` is set
(every `AppState` enum value is a non-empty, truthy string) return
`Promise.resolve(undefined)` without sending; otherwise set the guard,
send the state-change frame and await the platform (`outcome` stands for
the settled `sendAndGetResponse` promise), clearing the guard in a
`finally` on fulfilment and rejection alike. -/
def staterequest (pendingStateChange : Option AppState) (_state : AppState)
    (outcome : Except SendError Response) : StateRequestCall :=
  if pendingStateChange.isSome then
    { sent := false, result := .ok none, pendingAfter := pendingStateChange }
  else
    match outcome with
    | .ok r => { sent := true, result := .ok (some r), pendingAfter := none }
    | .error e => { sent := true, result := .error e, pendingAfter := none }

/-! ## Session controller: the sync policy -/

/-- The slice of a registered component the sync policy reads: the
`ready` getter (`componentState === READY`) and the operator-set
`required` flag. -/
structure SyncComp where
  ready : Bool
  required : Bool
  deriving DecidableEq, Repr

/-- `Cuss2.unavailableComponents`: `components.filter((c) => !c.ready)`. -/
def unavailableComponents (components : List SyncComp) : List SyncComp :=
  components.filter (fun c => !c.ready)

/-- `Cuss2.unavailableRequiredComponents`:
`this.unavailableComponents.filter((c) => c.required)`. -/
def unavailableRequiredComponents (components : List SyncComp) : List SyncComp :=
  (unavailableComponents components).filter (fun c => c.required)

/-- What one run of `checkRequiredComponentsAndSyncState` does: nothing,
a call to `requestAvailableState`, a call to `requestUnavailableState`,
or a `TypeError` (`Object.values(undefined)` when the component registry
was never initialized). -/
inductive SyncAction where
  | noop
  | callRequestAvailableState
  | callRequestUnavailableState
  | throwTypeError
  deriving DecidableEq, Repr

/-- `Cuss2.checkRequiredComponentsAndSyncState` (`src/connection.ts`
lines 787-810).  `components` is `some` exactly when `this.components`
has been initialized (the registry object is truthy even when empty). -/
def checkRequiredComponentsAndSyncState (pendingStateChange : Option AppState)
    (online : Bool) (components : Option (List SyncComp)) (state : AppState) :
    SyncAction :=
  if pendingStateChange.isSome then .noop
  else if online then
    match components with
    | none => .throwTypeError
    | some comps =>
        if (unavailableRequiredComponents comps).length = 0 then
          if state = .UNAVAILABLE then .callRequestAvailableState
          else .noop
        else .callRequestUnavailableState
  else if components.isSome then .callRequestUnavailableState
  else .noop

/-! ## Component model: call accounting and enable/disable
(`src/models/component.ts`) -/

namespace Component

/-- The `pendingCalls` counter observed around one outward action: its value
while the dispatched platform call is in flight (`during`) and after the
returned promise settles (`after`). -/
structure CallTrace where
  during : Nat
  after : Nat
  deriving DecidableEq, Repr

/-- `Component._call(action)` (`src/models/component.ts` lines 141-148):
`this.pendingCalls++`, run the action, and decrement once on the success
path (`.then(decrement)`) and once on the failure path
(`.catch((e) => Promise.reject(decrement(e)))`).  `outcome` stands for the
settled promise of `action()`. -/
def call (pendingCalls : Nat) (outcome : Except SendError Response) :
    Except SendError Response × CallTrace :=
  let during := pendingCalls + 1
  match outcome with
  | .ok r => (.ok r, ⟨during, during - 1⟩)
  | .error e => (.error e, ⟨during, during - 1⟩)

/-- `Component.enable()` (lines 150-156): `_call(api.enable)`, then on
success set `enabled = true`.  Returns the new `enabled` flag, the settled
promise and the counter trace. -/
def enable (enabled : Bool) (pendingCalls : Nat)
    (outcome : Except SendError Response) :
    Bool × Except SendError Response × CallTrace :=
  let (res, tr) := call pendingCalls outcome
  match res with
  | .ok r => (true, .ok r, tr)
  | .error e => (enabled, .error e, tr)

/-- How one `Component.disable()` call settles: normal resolution with the
platform response, resolution with the caught error value (the
OUTOFSEQUENCE soft-success path returns `e as unknown as PlatformData`),
or re-raised rejection. -/
inductive DisableResult where
  | resolvedResponse (r : Response)
  | resolvedError (e : SendError)
  | rejected (e : SendError)
  deriving Repr

/-- `Component.disable()` (`src/models/component.ts` lines 158-172):
`_call(api.disable)`, then on success set `enabled = false` and return the
response; on failure, if the caught error's `messageCode` is
`OUTOFSEQUENCE` set `enabled = false` and resolve with the error value,
otherwise re-reject the error (leaving `enabled` untouched). -/
def disable (enabled : Bool) (pendingCalls : Nat)
    (outcome : Except SendError Response) :
    Bool × DisableResult × CallTrace :=
  let (res, tr) := call pendingCalls outcome
  match res with
  | .ok r => (false, .resolvedResponse r, tr)
  | .error e =>
      if e.messageCode = some .OUTOFSEQUENCE then (false, .resolvedError e, tr)
      else (enabled, .rejected e, tr)

/-- `Component.cancel()` (lines 174-176): `_call(api.cancel)`. -/
def cancel (pendingCalls : Nat) (outcome : Except SendError Response) :
    Except SendError Response × CallTrace :=
  call pendingCalls outcome

/-- `Component.query()` (lines 178-180): `_call(api.getStatus)`. -/
def query (pendingCalls : Nat) (outcome : Except SendError Response) :
    Except SendError Response × CallTrace :=
  call pendingCalls outcome

/-- `Component.setup(dataObj)` (lines 182-185):
`return await this.api.setup(this.id, dataObj)` — the controller API is
called directly, without `_call`, so `pendingCalls` is never touched. -/
def setup (pendingCalls : Nat) (outcome : Except SendError Response) :
    Except SendError Response × CallTrace :=
  (outcome, ⟨pendingCalls, pendingCalls⟩)

/-- `Component.send(dataObj)` (lines 187-190):
`return await this.api.send(this.id, dataObj)` — likewise dispatched
without `_call`. -/
def send (pendingCalls : Nat) (outcome : Except SendError Response) :
    Except SendError Response × CallTrace :=
  (outcome, ⟨pendingCalls, pendingCalls⟩)

end Component

/-! ## Component state machine and composite printer aggregation
(`src/models/component.ts` `updateState`, `src/models/Printer.ts`) -/

/-- `ComponentState` from `cuss2-typescript-models`. -/
inductive ComponentState where
  | UNAVAILABLE
  | READY
  deriving DecidableEq, Repr

/-- The `PlatformDirectives` members the component layer inspects. -/
inductive Directive where
  | PeripheralsSend
  | PeripheralsQuery
  | PlatformApplicationsStaterequest
  deriving DecidableEq, Repr

/-- Per-component mutable state touched by `updateState`:
`_componentState`, `_status`, `enabled`, the operator-set `required` flag,
the watchdog handle (`_poller`, present or not) and `pollingInterval`. -/
structure CompCore where
  componentState : ComponentState
  status : MessageCode
  enabled : Bool
  required : Bool
  pollerActive : Bool
  pollingInterval : Nat
  deriving DecidableEq, Repr

/-- The `ready` getter: `componentState === READY`. -/
def CompCore.ready (c : CompCore) : Bool :=
  c.componentState == .READY

/-- The metadata of an inbound frame as read by `updateState`:
`platformDirective` is absent on unsolicited frames and
`componentState` may be absent (`meta.componentState ?? UNAVAILABLE`). -/
structure CompMsg where
  platformDirective : Option Directive
  messageCode : MessageCode
  componentState : Option ComponentState
  deriving DecidableEq, Repr

/-- Events a base component emits while processing one frame. -/
inductive CompEvent where
  | readyStateChange (ready : Bool)
  | statusChange (status : MessageCode)
  deriving DecidableEq, Repr

/-- `Component.updateState(msg)` (`src/models/component.ts` lines 100-121):
if the reported component state differs from the cached one, replace it
(defaulting an absent report to `UNAVAILABLE`), force `enabled = false`
on any non-READY report, and emit `readyStateChange`; then start the
watchdog if the component is required, not ready, unpolled and polling is
enabled; finally, if the result code differs from the cached status,
replace it and emit `statusChange`. -/
def updateState (c : CompCore) (m : CompMsg) : CompCore × List CompEvent :=
  let step1 :=
    if m.componentState ≠ some c.componentState then
      let c := { c with componentState := m.componentState.getD .UNAVAILABLE }
      let c := if m.componentState ≠ some .READY then { c with enabled := false } else c
      (c, [CompEvent.readyStateChange (m.componentState == some .READY)])
    else (c, ([] : List CompEvent))
  let c := step1.1
  let c :=
    if !c.ready && c.required && !c.pollerActive && decide (0 < c.pollingInterval) then
      { c with pollerActive := true }
    else c
  if c.status ≠ m.messageCode then
    ({ c with status := m.messageCode }, step1.2 ++ [CompEvent.statusChange m.messageCode])
  else (c, step1.2)

/-- Fire-and-forget side effects recorded (not executed) while a printer
frame is processed: the child queries and the dispenser `mediaPresent`
emission of `Printer.updateState`. -/
inductive PrinterAction where
  | queryFeeder
  | queryDispenser
  | emitMediaPresentOnDispenser
  deriving DecidableEq, Repr

/-- The CUTnHOLD remap at the head of `Printer.updateState`
(`src/models/Printer.ts` lines 124-130): a `PeripheralsSend` response
with `messageCode TIMEOUT` and reported state `UNAVAILABLE` is rewritten
to `READY` before the base state machine runs. -/
def printerRemap (m : CompMsg) : CompMsg :=
  if m.platformDirective = some .PeripheralsSend
      ∧ m.messageCode = .TIMEOUT
      ∧ m.componentState = some .UNAVAILABLE then
    { m with componentState := some .READY }
  else m

/-- The child-query block of `Printer.updateState` (lines 132-142), run on
the (possibly remapped) message before delegating to the base machine:
if the printer was not ready and the report is `READY`, query both
children; otherwise on a `MEDIAPRESENT` code emit `mediaPresent` on the
dispenser and query it. -/
def printerChildActions (p : CompCore) (m : CompMsg) : List PrinterAction :=
  if !p.ready && m.componentState == some .READY then
    [PrinterAction.queryFeeder, PrinterAction.queryDispenser]
  else if m.messageCode = .MEDIAPRESENT then
    [PrinterAction.emitMediaPresentOnDispenser, PrinterAction.queryDispenser]
  else []

/-- `Printer.updateState(msg)` (`src/models/Printer.ts` lines 121-146):
the remap, then the child queries, then the base `updateState`. -/
def printerUpdateState (p : CompCore) (m : CompMsg) :
    CompCore × List CompEvent × List PrinterAction :=
  let m := printerRemap m
  let acts := printerChildActions p m
  let s := updateState p m
  (s.1, s.2, acts)

/-- The composite printer system: the printer core, its two linked
children, the derived `_combinedReady`/`_combinedStatus` caches, and the
dispenser's `_mediaPresent` flag (from the `Dispenser` subclass). -/
structure PrinterSystem where
  printer : CompCore
  feeder : CompCore
  dispenser : CompCore
  combinedReady : Bool
  combinedStatus : MessageCode
  dispenserMediaPresent : Bool
  deriving DecidableEq, Repr

/-- Events emitted by the combined-state listeners of the printer (and the
dispenser's `mediaPresent` emission). -/
inductive CombinedEvent where
  | combinedReadyStateChange (ready : Bool)
  | combinedStatusChange (status : MessageCode)
  | mediaPresent (present : Bool)
  deriving DecidableEq, Repr

/-- `updateCombinedReadyState` from the `Printer` constructor
(`src/models/Printer.ts` lines 46-56): recompute
`printerReady && feederReady && dispenserReady` and, only when the cached
value differs, store it and emit `combinedReadyStateChange`. -/
def updateCombinedReadyState (sys : PrinterSystem) :
    PrinterSystem × List CombinedEvent :=
  let ready := sys.printer.ready && sys.feeder.ready && sys.dispenser.ready
  if sys.combinedReady ≠ ready then
    ({ sys with combinedReady := ready }, [.combinedReadyStateChange ready])
  else (sys, [])

/-- `updateCombinedStatus` from the `Printer` constructor (lines 59-72):
`[printerStatus, feederStatus, dispenserStatus].find((s) => s != OK) || OK`;
store and emit `combinedStatusChange` only when the cached value differs. -/
def updateCombinedStatus (sys : PrinterSystem) :
    PrinterSystem × List CombinedEvent :=
  let status :=
    (([sys.printer.status, sys.feeder.status, sys.dispenser.status]).find?
      (fun s => s ≠ .OK)).getD .OK
  if sys.combinedStatus ≠ status then
    ({ sys with combinedStatus := status }, [.combinedStatusChange status])
  else (sys, [])

/-- The `Dispenser` constructor's own `statusChange` listener: on a
`MEDIAPRESENT` status start `pollUntilReady(true, 2000)` (which arms the
watchdog unless the dispenser is already ready with status OK) and raise
the latched `_mediaPresent` flag, emitting `mediaPresent` on edges. -/
def dispenserStatusListener (sys : PrinterSystem) (status : MessageCode) :
    PrinterSystem × List CombinedEvent :=
  if status = .MEDIAPRESENT then
    let d := sys.dispenser
    let d :=
      if !d.pollerActive && !(d.ready && d.status == .OK) then
        { d with pollerActive := true }
      else d
    let sys := { sys with dispenser := d }
    if !sys.dispenserMediaPresent then
      ({ sys with dispenserMediaPresent := true }, [.mediaPresent true])
    else (sys, [])
  else
    if sys.dispenserMediaPresent then
      ({ sys with dispenserMediaPresent := false }, [.mediaPresent false])
    else (sys, [])

/-- Run the `Printer`-constructor listeners for the events one component
emitted: each `readyStateChange` triggers `updateCombinedReadyState`, each
`statusChange` triggers `updateCombinedStatus`.  (The ready listener reads
only the readiness of the three cores and the status listener runs after
both caches are written, so running them after `updateState` returns is
observationally identical to the synchronous in-emit execution.) -/
def applyCombinedListeners (sys : PrinterSystem) :
    List CompEvent → PrinterSystem × List CombinedEvent
  | [] => (sys, [])
  | ev :: rest =>
      let step :=
        match ev with
        | .readyStateChange _ => updateCombinedReadyState sys
        | .statusChange _ => updateCombinedStatus sys
      let next := applyCombinedListeners step.1 rest
      (next.1, step.2 ++ next.2)

/-- Listeners attached to the dispenser: its own `statusChange` listener
(registered first, in the `Dispenser` constructor) followed by the
printer's combined listeners. -/
def applyDispenserListeners (sys : PrinterSystem) :
    List CompEvent → PrinterSystem × List CombinedEvent
  | [] => (sys, [])
  | ev :: rest =>
      let step :=
        match ev with
        | .readyStateChange _ => updateCombinedReadyState sys
        | .statusChange st =>
            let own := dispenserStatusListener sys st
            let comb := updateCombinedStatus own.1
            (comb.1, own.2 ++ comb.2)
      let next := applyDispenserListeners step.1 rest
      (next.1, step.2 ++ next.2)

/-- Which of the three linked components an inbound frame targets. -/
inductive PTarget where
  | printer
  | feeder
  | dispenser
  deriving DecidableEq, Repr

/-- Process one inbound frame addressed to the printer, the feeder or the
dispenser: run the component's `updateState` (the printer override for the
printer itself) and the synchronously attached listeners. -/
def processMessage (sys : PrinterSystem) (t : PTarget) (m : CompMsg) :
    PrinterSystem × List CombinedEvent × List PrinterAction :=
  match t with
  | .printer =>
      let step := printerUpdateState sys.printer m
      let sys := { sys with printer := step.1 }
      let fanout := applyCombinedListeners sys step.2.1
      (fanout.1, fanout.2, step.2.2)
  | .feeder =>
      let step := updateState sys.feeder m
      let sys := { sys with feeder := step.1 }
      let fanout := applyCombinedListeners sys step.2
      (fanout.1, fanout.2, [])
  | .dispenser =>
      let step := updateState sys.dispenser m
      let sys := { sys with dispenser := step.1 }
      let fanout := applyDispenserListeners sys step.2
      (fanout.1, fanout.2, [])

/-- The `Printer` constructor's tail (lines 42-43 and 98-100): initialize
`_combinedReady = false`, `_combinedStatus = OK`, then run both updaters
once. -/
def mkPrinterSystem (p f d : CompCore) (dMediaPresent : Bool) : PrinterSystem :=
  let sys : PrinterSystem :=
    { printer := p, feeder := f, dispenser := d,
      combinedReady := false, combinedStatus := .OK,
      dispenserMediaPresent := dMediaPresent }
  let sys := (updateCombinedReadyState sys).1
  (updateCombinedStatus sys).1

/-- The derived combined readiness the spec talks about. -/
def derivedReady (sys : PrinterSystem) : Bool :=
  sys.printer.ready && sys.feeder.ready && sys.dispenser.ready

/-- The derived combined status the spec talks about: the first non-OK
status among printer, feeder, dispenser, else OK. -/
def derivedStatus (sys : PrinterSystem) : MessageCode :=
  (([sys.printer.status, sys.feeder.status, sys.dispenser.status]).find?
    (fun s => s ≠ .OK)).getD .OK

/-- The aggregation invariant: the caches agree with the derived values. -/
def CombinedInv (sys : PrinterSystem) : Prop :=
  sys.combinedReady = derivedReady sys ∧ sys.combinedStatus = derivedStatus sys

instance (sys : PrinterSystem) : Decidable (CombinedInv sys) := by
  unfold CombinedInv; infer_instance

/-- Count the `combinedReadyStateChange` events in an emission list. -/
def countReadyEvents (evs : List CombinedEvent) : Nat :=
  (evs.filter (fun e => match e with
    | .combinedReadyStateChange _ => true
    | _ => false)).length

/-- Count the `combinedStatusChange` events in an emission list. -/
def countStatusEvents (evs : List CombinedEvent) : Nat :=
  (evs.filter (fun e => match e with
    | .combinedStatusChange _ => true
    | _ => false)).length

/-! ## Session controller: inbound state reports
(`Cuss2._handleWebSocketMessage`, `src/connection.ts` lines 427-454) -/

/-- `ApplicationActivationExecutionModeEnum` from the wire models. -/
inductive ExecutionMode where
  | MAM
  | SAM
  deriving DecidableEq, Repr

/-- The `applicationActivation` payload of an inbound frame (the fields
this handler reads; each is optional in the generated wire model). -/
structure ActivationPayload where
  executionMode : Option ExecutionMode
  accessibleMode : Option Bool
  languageID : Option (List Char)
  deriving DecidableEq, Repr

/-- Controller fields the state-report handler reads and writes. -/
structure ControllerState where
  currentState : AppState
  previousState : AppState
  multiTenant : Option Bool
  accessibleMode : Bool
  language : Option (List Char)
  deriving DecidableEq, Repr

/-- Events and recorded side effects of the state-report handler. -/
inductive ControllerEvent where
  | stateChange (previous current : AppState)
  | queryComponents
  | syncCheck
  | activated (payload : Option ActivationPayload)
  | deactivated (newState : AppState)
  deriving DecidableEq, Repr

/-- JavaScript `v || dflt` on an optional string: `undefined` and the empty
string are falsy. -/
def jsStringOr (v : Option (List Char)) (dflt : List Char) : List Char :=
  match v with
  | some s => if s = [] then dflt else s
  | none => dflt

/-- The state-change section of `Cuss2._handleWebSocketMessage`
(`src/connection.ts` lines 427-454), run when the frame's reported
application state differs from the controller's current state: replace
the current/previous pair and emit `stateChange`; on `UNAVAILABLE`
re-query components and (if online) re-run the sync policy; on `ACTIVE`
run the activation block — note the source guards the `multiTenant`
assignment with `if (!payload?.applicationActivation)`, so it is assigned
(always to `false`, since the lookup under that guard is `undefined`)
only when the activation payload is absent — then set `accessibleMode`
and `language` with `|| false` / `|| "en-US"` defaults and emit
`activated`; finally emit `deactivated` when the previous state was
`ACTIVE`. -/
def handleStateReport (st : ControllerState) (reported : AppState)
    (applicationActivation : Option ActivationPayload) (online : Bool) :
    ControllerState × List ControllerEvent :=
  if reported ≠ st.currentState then
    let prevState := st.currentState
    let st := { st with previousState := prevState, currentState := reported }
    let evs := [ControllerEvent.stateChange prevState reported]
    let branch :=
      if reported = .UNAVAILABLE then
        (st, evs ++ [ControllerEvent.queryComponents]
              ++ (if online then [ControllerEvent.syncCheck] else []))
      else if reported = .ACTIVE then
        let mt : Bool :=
          (applicationActivation.bind (fun a => a.executionMode)) == some ExecutionMode.MAM
        let st :=
          if applicationActivation = none then { st with multiTenant := some mt }
          else st
        let st := { st with
          accessibleMode := (applicationActivation.bind (·.accessibleMode)).getD false,
          language := some (jsStringOr (applicationActivation.bind (·.languageID))
            "en-US".toList) }
        (st, evs ++ [ControllerEvent.activated applicationActivation])
      else (st, evs)
    let st := branch.1
    let evs := branch.2
    if prevState = .ACTIVE then
      (st, evs ++ [ControllerEvent.deactivated reported])
    else (st, evs)
  else (st, [])

/-! ## Concrete sample values (used to instantiate the theorems below) -/

/-- A minimal outbound frame. -/
def sampleFrame : AppData :=
  { meta := { requestID := [], oauthToken := none, deviceID := none } }

/-- A response carrying the `OK` result code. -/
def sampleRespOK : Response := { meta := { messageCode := some .OK } }

/-- A response carrying the critical `CANCELLED` result code. -/
def sampleRespCancelled : Response := { meta := { messageCode := some .CANCELLED } }

/-- A rejection wrapping a `TIMEOUT` response. -/
def sampleErrTimeout : SendError :=
  .platformResponseError { meta := { messageCode := some .TIMEOUT } }

/-- A rejection wrapping an `OUTOFSEQUENCE` response. -/
def sampleErrOutOfSequence : SendError :=
  .platformResponseError { meta := { messageCode := some .OUTOFSEQUENCE } }

/-- An activation payload reporting MAM (multi-application) execution. -/
def sampleActivationMAM : ActivationPayload :=
  { executionMode := some .MAM, accessibleMode := some true,
    languageID := some "fr-FR".toList }

/-- A controller currently `AVAILABLE` with no captured activation flags. -/
def sampleController : ControllerState :=
  { currentState := .AVAILABLE, previousState := .UNAVAILABLE,
    multiTenant := none, accessibleMode := false, language := none }

/-- An idle, not-ready component core. -/
def sampleCore : CompCore :=
  { componentState := .UNAVAILABLE, status := .OK, enabled := false,
    required := false, pollerActive := false, pollingInterval := 10000 }

/-- A printer system as built by the `Printer` constructor over three idle
cores. -/
def samplePrinterSystem : PrinterSystem :=
  mkPrinterSystem sampleCore sampleCore sampleCore false

/-- A query response reporting `READY` with code `OK`. -/
def sampleReadyMsg : CompMsg :=
  { platformDirective := some .PeripheralsQuery, messageCode := .OK,
    componentState := some .READY }

/-- A `PeripheralsSend` response with `TIMEOUT` and `UNAVAILABLE` (the
CUTnHOLD false-negative shape). -/
def sampleTimeoutMsg : CompMsg :=
  { platformDirective := some .PeripheralsSend, messageCode := .TIMEOUT,
    componentState := some .UNAVAILABLE }

/-- A non-ready sync-policy component that is required. -/
def sampleSyncCompDown : SyncComp := { ready := false, required := true }

/-- A ready, required sync-policy component. -/
def sampleSyncCompUp : SyncComp := { ready := true, required := true }

/-! ## Theorems -/

/-- A code is non-critical exactly when it is not in the `criticalErrors`
list. -/
theorem isNonCritical_iff (mc : MessageCode) :
    isNonCritical mc = true ↔ mc ∉ criticalErrors := by
  simp only [isNonCritical, Bool.not_eq_true', Bool.eq_false_iff, Ne,
    List.any_eq_true, beq_iff_eq, not_exists, not_and]
  exact ⟨fun h hm => h mc hm rfl, fun h x hx he => h (he ▸ hx)⟩

/-- C1: `sendAndGetResponse` rejects immediately with the "not connected"
error when no socket exists; otherwise, once the response correlated by
the frame's request identifier arrives, it resolves with that response
unchanged exactly when the response's message code is non-critical, and
rejects with a `PlatformResponseError` wrapping the full response for
every message code in the critical set. -/
theorem C1_sendAndGetResponse_classification :
    (∀ tok dev frame arrived,
      (sendAndGetResponse false tok dev frame arrived).result
        = Except.error SendError.notConnected) ∧
    (∀ tok dev frame arrived mc, arrived.meta.messageCode = some mc →
      ((sendAndGetResponse true tok dev frame arrived).result = Except.ok arrived
        ↔ isNonCritical mc = true) ∧
      (mc ∈ criticalErrors →
        (sendAndGetResponse true tok dev frame arrived).result
          = Except.error (SendError.platformResponseError arrived))) := by
  constructor
  · intro tok dev frame arrived
    rfl
  · intro tok dev frame arrived mc h
    cases hb : isNonCritical mc with
    | false =>
        constructor
        · simp [sendAndGetResponse, h, hb]
        · intro _
          simp [sendAndGetResponse, h, hb]
    | true =>
        constructor
        · simp [sendAndGetResponse, h, hb]
        · intro hmem
          exact absurd hmem ((isNonCritical_iff mc).mp hb)

/-- Witness for C1 at concrete inputs: no socket rejects; `OK` resolves
unchanged; `CANCELLED` rejects wrapping the response. -/
theorem C1_witness :
    (sendAndGetResponse false [] none sampleFrame sampleRespOK).result
        = Except.error SendError.notConnected
    ∧ (sendAndGetResponse true [] none sampleFrame sampleRespOK).result
        = Except.ok sampleRespOK
    ∧ (sendAndGetResponse true [] none sampleFrame sampleRespCancelled).result
        = Except.error (SendError.platformResponseError sampleRespCancelled) := by
  refine ⟨C1_sendAndGetResponse_classification.1 [] none sampleFrame sampleRespOK,
    ?_, ?_⟩
  · exact (C1_sendAndGetResponse_classification.2 [] none sampleFrame
      sampleRespOK .OK rfl).1.mpr (by decide)
  · exact (C1_sendAndGetResponse_classification.2 [] none sampleFrame
      sampleRespCancelled .CANCELLED rfl).2 (by decide)

/-- Every element of a `takeWhile` prefix satisfies the predicate. -/
theorem mem_takeWhile_sat (p : Char → Bool) :
    ∀ (l : List Char) (a : Char), a ∈ l.takeWhile p → p a = true := by
  intro l
  induction l with
  | nil => intro a ha; simp [List.takeWhile] at ha
  | cons b t ih =>
      intro a ha
      cases hb : p b with
      | false => simp [List.takeWhile_cons, hb] at ha
      | true =>
          simp only [List.takeWhile_cons, hb, if_true, List.mem_cons] at ha
          rcases ha with rfl | ha
          · exact hb
          · exact ih a ha

/-- `takeWhile` keeps a list all of whose elements satisfy the predicate. -/
theorem takeWhile_eq_self_of_sat (p : Char → Bool) :
    ∀ (l : List Char), (∀ a ∈ l, p a = true) → l.takeWhile p = l := by
  intro l
  induction l with
  | nil => intro _; rfl
  | cons b t ih =>
      intro h
      have hb := h b (List.mem_cons_self b t)
      simp only [List.takeWhile_cons, hb, if_true]
      rw [ih (fun a ha => h a (List.mem_cons_of_mem b ha))]

/-- C9 fails as stated: cleaning strips only one trailing slash per
application, so a URL whose query-stripped form ends in `//` is not a
fixed point after one cleaning. -/
theorem C9_counterexample :
    cleanBaseURL (cleanBaseURL ("http://h//".toList))
      ≠ cleanBaseURL ("http://h//".toList) := by
  decide

/-- C9 amended: base-URL normalization is idempotent for every URL whose
query-stripped form does not end in a double slash — in particular for
URLs with or without a single trailing slash and/or a query string. -/
theorem C9_clean_idempotent (u : List Char)
    (h : endsWithDoubleSlash (stripQuery u) = false) :
    cleanBaseURL (cleanBaseURL u) = cleanBaseURL u := by
  have hq : stripQuery (stripQuery u) = stripQuery u := by
    unfold stripQuery
    apply takeWhile_eq_self_of_sat
    intro a ha
    exact mem_takeWhile_sat _ u a ha
  have hq' : stripQuery ((stripQuery u).dropLast) = (stripQuery u).dropLast := by
    unfold stripQuery
    apply takeWhile_eq_self_of_sat
    intro a ha
    exact mem_takeWhile_sat _ u a (List.dropLast_subset _ ha)
  by_cases hl : (stripQuery u).getLast? = some '/'
  · have h2 : ((stripQuery u).dropLast).getLast? ≠ some '/' := by
      intro hd
      unfold endsWithDoubleSlash at h
      rw [hl, hd] at h
      simp at h
    have e1 : cleanBaseURL u = (stripQuery u).dropLast := by
      unfold cleanBaseURL
      rw [if_pos hl]
    have e2 : cleanBaseURL ((stripQuery u).dropLast) = (stripQuery u).dropLast := by
      unfold cleanBaseURL
      rw [hq', if_neg h2]
    rw [e1, e2]
  · have e1 : cleanBaseURL u = stripQuery u := by
      unfold cleanBaseURL
      rw [if_neg hl]
    have e2 : cleanBaseURL (stripQuery u) = stripQuery u := by
      unfold cleanBaseURL
      rw [hq, if_neg hl]
    rw [e1, e2]

/-- Witness for C9 at concrete inputs covering a trailing slash together
with a query string. -/
theorem C9_witness :
    endsWithDoubleSlash (stripQuery ("https://example.com/api/?p=1".toList)) = false
    ∧ cleanBaseURL (cleanBaseURL ("https://example.com/api/?p=1".toList))
        = cleanBaseURL ("https://example.com/api/?p=1".toList) :=
  ⟨by decide, C9_clean_idempotent _ (by decide)⟩

/-- The filtered list of required-but-unavailable components is empty
exactly when every required component is ready. -/
theorem unavailableRequired_empty_iff (comps : List SyncComp) :
    (unavailableRequiredComponents comps).length = 0
      ↔ ∀ c ∈ comps, c.required = true → c.ready = true := by
  rw [List.length_eq_zero]
  unfold unavailableRequiredComponents unavailableComponents
  rw [List.filter_eq_nil_iff]
  constructor
  · intro h c hc hreq
    cases hr : c.ready with
    | true => rfl
    | false =>
        have hmem : c ∈ List.filter (fun c => !c.ready) comps :=
          List.mem_filter.mpr ⟨hc, by rw [hr]; rfl⟩
        exact absurd hreq (by simpa using h c hmem)
  · intro h c hc
    obtain ⟨hc1, hc2⟩ := List.mem_filter.mp hc
    simp only [Bool.not_eq_true'] at hc2
    intro hreq
    rw [h c hc1 hreq] at hc2
    exact absurd hc2 (by simp)

/-- C2: the sync policy is a no-op while a state change is outstanding;
online with every required component ready and current state
`UNAVAILABLE` it calls `requestAvailableState`; online with some required
component not ready it calls `requestUnavailableState` regardless of
state; offline it calls `requestUnavailableState` whenever the component
registry exists. -/
theorem C2_sync_policy :
    (∀ pending online components state, pending ≠ none →
      checkRequiredComponentsAndSyncState pending online components state
        = SyncAction.noop) ∧
    (∀ comps, (∀ c ∈ comps, c.required = true → c.ready = true) →
      checkRequiredComponentsAndSyncState none true (some comps) .UNAVAILABLE
        = SyncAction.callRequestAvailableState) ∧
    (∀ comps state c, c ∈ comps → c.required = true → c.ready = false →
      checkRequiredComponentsAndSyncState none true (some comps) state
        = SyncAction.callRequestUnavailableState) ∧
    (∀ comps state,
      checkRequiredComponentsAndSyncState none false (some comps) state
        = SyncAction.callRequestUnavailableState) := by
  refine ⟨?_, ?_, ?_, ?_⟩
  · intro pending online components state h
    cases pending with
    | none => exact absurd rfl h
    | some p => rfl
  · intro comps hready
    have h0 : (unavailableRequiredComponents comps).length = 0 :=
      (unavailableRequired_empty_iff comps).mpr hready
    simp [checkRequiredComponentsAndSyncState, h0]
  · intro comps state c hc hreq hnotready
    have h0 : ¬ (unavailableRequiredComponents comps).length = 0 := by
      intro h0
      have := (unavailableRequired_empty_iff comps).mp h0 c hc hreq
      rw [hnotready] at this
      exact absurd this (by simp)
    simp [checkRequiredComponentsAndSyncState, h0]
  · intro comps state
    rfl

/-- Witness for C2 at concrete inputs: a pending guard makes the policy a
no-op; all-ready online in `UNAVAILABLE` requests available; a down
required component online requests unavailable; offline with a registry
requests unavailable. -/
theorem C2_witness :
    checkRequiredComponentsAndSyncState (some .AVAILABLE) true
        (some [sampleSyncCompDown]) .UNAVAILABLE = SyncAction.noop
    ∧ checkRequiredComponentsAndSyncState none true (some [sampleSyncCompUp])
        .UNAVAILABLE = SyncAction.callRequestAvailableState
    ∧ checkRequiredComponentsAndSyncState none true (some [sampleSyncCompDown])
        .ACTIVE = SyncAction.callRequestUnavailableState
    ∧ checkRequiredComponentsAndSyncState none false (some [sampleSyncCompUp])
        .AVAILABLE = SyncAction.callRequestUnavailableState := by
  refine ⟨C2_sync_policy.1 _ true _ _ (by simp), ?_, ?_,
    C2_sync_policy.2.2.2 [sampleSyncCompUp] .AVAILABLE⟩
  · exact C2_sync_policy.2.1 [sampleSyncCompUp] (by decide)
  · exact C2_sync_policy.2.2.1 [sampleSyncCompDown] .ACTIVE sampleSyncCompDown
      (by simp) (by decide) (by decide)

/-- C3: at most one state-change request is in flight — a `staterequest`
call made while `pendingStateChange` is set sends nothing and resolves
with no result, and a state-request frame is only ever sent by a call
made while no request is pending. -/
theorem C3_staterequest_guard :
    (∀ pending s outcome, pending ≠ none →
      (staterequest pending s outcome).sent = false
        ∧ (staterequest pending s outcome).result = Except.ok none) ∧
    (∀ pending s outcome, (staterequest pending s outcome).sent = true →
      pending = none) ∧
    (∀ s outcome, (staterequest none s outcome).sent = true) := by
  refine ⟨?_, ?_, ?_⟩
  · intro pending s outcome h
    cases pending with
    | none => exact absurd rfl h
    | some p => exact ⟨rfl, rfl⟩
  · intro pending s outcome h
    cases pending with
    | none => rfl
    | some p => exact absurd h (by simp [staterequest])
  · intro s outcome
    cases outcome <;> rfl

/-- Witness for C3 at a concrete input: a second request during an
outstanding `AVAILABLE` change is suppressed. -/
theorem C3_witness :
    (staterequest (some AppState.AVAILABLE) .UNAVAILABLE
        (Except.ok sampleRespOK)).sent = false
    ∧ (staterequest (some AppState.AVAILABLE) .UNAVAILABLE
        (Except.ok sampleRespOK)).result = Except.ok none :=
  C3_staterequest_guard.1 (some .AVAILABLE) .UNAVAILABLE
    (Except.ok sampleRespOK) (by simp)

/-- C10: a dispatching `staterequest` call clears `pendingStateChange`
when it settles, on fulfilment and rejection alike (the clear runs in a
`finally`), so a subsequent state-change request is never suppressed by a
stale guard. -/
theorem C10_staterequest_clears_guard :
    ∀ s outcome s2 outcome2,
      (staterequest none s outcome).pendingAfter = none
      ∧ (staterequest (staterequest none s outcome).pendingAfter s2
          outcome2).sent = true := by
  intro s outcome s2 outcome2
  cases outcome with
  | ok r => exact ⟨rfl, by cases outcome2 <;> rfl⟩
  | error e => exact ⟨rfl, by cases outcome2 <;> rfl⟩

/-- C4 fails as stated: a `disable()` call that was enabled and rejects
with a non-OUTOFSEQUENCE code (here `TIMEOUT`) leaves `enabled = true`. -/
theorem C4_counterexample :
    ¬ ((Component.disable true 0 (Except.error sampleErrTimeout)).1 = false) := by
  decide

/-- C4 amended: `disable()` ends with `enabled = false` on success and on
an `OUTOFSEQUENCE` failure (which is absorbed, resolving with the error
value); a failure with any other code is re-raised and leaves `enabled`
unchanged. -/
theorem C4_disable_enabled_flag :
    (∀ en n r, Component.disable en n (Except.ok r)
        = (false, Component.DisableResult.resolvedResponse r, ⟨n + 1, n⟩)) ∧
    (∀ en n e, e.messageCode = some MessageCode.OUTOFSEQUENCE →
      Component.disable en n (Except.error e)
        = (false, Component.DisableResult.resolvedError e, ⟨n + 1, n⟩)) ∧
    (∀ en n e, e.messageCode ≠ some MessageCode.OUTOFSEQUENCE →
      Component.disable en n (Except.error e)
        = (en, Component.DisableResult.rejected e, ⟨n + 1, n⟩)) := by
  refine ⟨?_, ?_, ?_⟩
  · intro en n r
    simp [Component.disable, Component.call]
  · intro en n e h
    simp [Component.disable, Component.call, h]
  · intro en n e h
    simp [Component.disable, Component.call, h]

/-- Witness for C4 (amended) at concrete inputs: success, absorbed
OUTOFSEQUENCE failure, and a re-raised TIMEOUT failure that leaves the
flag up. -/
theorem C4_witness :
    Component.disable true 2 (Except.ok sampleRespOK)
        = (false, Component.DisableResult.resolvedResponse sampleRespOK, ⟨3, 2⟩)
    ∧ (sampleErrOutOfSequence.messageCode = some MessageCode.OUTOFSEQUENCE
        ∧ Component.disable true 2 (Except.error sampleErrOutOfSequence)
          = (false, Component.DisableResult.resolvedError sampleErrOutOfSequence,
              ⟨3, 2⟩))
    ∧ (sampleErrTimeout.messageCode ≠ some MessageCode.OUTOFSEQUENCE
        ∧ Component.disable true 2 (Except.error sampleErrTimeout)
          = (true, Component.DisableResult.rejected sampleErrTimeout, ⟨3, 2⟩)) := by
  refine ⟨C4_disable_enabled_flag.1 true 2 sampleRespOK, ⟨rfl, ?_⟩, ⟨by decide, ?_⟩⟩
  · exact C4_disable_enabled_flag.2.1 true 2 sampleErrOutOfSequence rfl
  · exact C4_disable_enabled_flag.2.2 true 2 sampleErrTimeout (by decide)

/-- C5 fails as stated: `setup` dispatches directly to the controller API
without incrementing `pendingCalls` first. -/
theorem C5_counterexample :
    ¬ ((Component.setup 0 (Except.ok sampleRespOK)).2.during = 0 + 1) := by
  decide

/-- C5 amended: `enable`, `disable`, `cancel` and `query` increment
`pendingCalls` before dispatch and decrement it exactly once when the
call settles, on success and failure alike, returning the counter to its
pre-call value; `setup` and `send` dispatch directly to the controller
API and never touch the counter. -/
theorem C5_call_accounting :
    (∀ n outcome, (Component.call n outcome).2 = ⟨n + 1, n⟩) ∧
    (∀ en n outcome, (Component.enable en n outcome).2.2 = ⟨n + 1, n⟩) ∧
    (∀ en n outcome, (Component.disable en n outcome).2.2 = ⟨n + 1, n⟩) ∧
    (∀ n outcome, (Component.cancel n outcome).2 = ⟨n + 1, n⟩) ∧
    (∀ n outcome, (Component.query n outcome).2 = ⟨n + 1, n⟩) ∧
    (∀ n outcome, (Component.setup n outcome).2 = ⟨n, n⟩) ∧
    (∀ n outcome, (Component.send n outcome).2 = ⟨n, n⟩) := by
  refine ⟨?_, ?_, ?_, ?_, ?_, ?_, ?_⟩
  · intro n outcome
    cases outcome <;> simp [Component.call]
  · intro en n outcome
    cases outcome <;> simp [Component.enable, Component.call]
  · intro en n outcome
    cases outcome with
    | ok r => simp [Component.disable, Component.call]
    | error e =>
        by_cases h : e.messageCode = some MessageCode.OUTOFSEQUENCE <;>
          simp [Component.disable, Component.call, h]
  · intro n outcome
    cases outcome <;> simp [Component.cancel, Component.call]
  · intro n outcome
    cases outcome <;> simp [Component.query, Component.call]
  · intro n outcome
    rfl
  · intro n outcome
    rfl

/-- C8: evaluating the state-report handler at the failing input.  An
inbound `ACTIVE` report carrying an activation payload with execution
mode MAM leaves `multiTenant` untouched (`none`), because the source
guards the assignment with `if (!payload?.applicationActivation)`; the
flag is only ever assigned — always to `false` — when the activation
payload is absent.  `accessibleMode`, `language` and the `activated`
emission behave as claimed. -/
theorem C8_activation_flags :
    ((handleStateReport sampleController .ACTIVE (some sampleActivationMAM)
        true).1.multiTenant = none)
    ∧ ¬ ((handleStateReport sampleController .ACTIVE (some sampleActivationMAM)
        true).1.multiTenant = some true)
    ∧ ((handleStateReport sampleController .ACTIVE none true).1.multiTenant
        = some false)
    ∧ ((handleStateReport sampleController .ACTIVE (some sampleActivationMAM)
        true).1.accessibleMode = true)
    ∧ ((handleStateReport sampleController .ACTIVE (some sampleActivationMAM)
        true).1.language = some ("fr-FR".toList))
    ∧ ((handleStateReport sampleController .ACTIVE (some sampleActivationMAM)
        true).2
        = [ControllerEvent.stateChange .AVAILABLE .ACTIVE,
           ControllerEvent.activated (some sampleActivationMAM)]) := by
  refine ⟨rfl, by decide, rfl, rfl, rfl, rfl⟩

/-- Closed form of the combined-readiness updater: the cache is set to the
derived value and an event is emitted exactly when the cache changes. -/
theorem updateCombinedReadyState_eq (sys : PrinterSystem) :
    updateCombinedReadyState sys
      = ({ sys with combinedReady := derivedReady sys },
         if sys.combinedReady = derivedReady sys then []
         else [CombinedEvent.combinedReadyStateChange (derivedReady sys)]) := by
  simp only [updateCombinedReadyState, derivedReady]
  split_ifs with h1 h2 <;> first
    | rfl
    | exact absurd h2 h1
    | (rw [not_not] at h1; rw [← h1])

/-- Closed form of the combined-status updater. -/
theorem updateCombinedStatus_eq (sys : PrinterSystem) :
    updateCombinedStatus sys
      = ({ sys with combinedStatus := derivedStatus sys },
         if sys.combinedStatus = derivedStatus sys then []
         else [CombinedEvent.combinedStatusChange (derivedStatus sys)]) := by
  simp only [updateCombinedStatus, derivedStatus]
  split_ifs with h1 h2 <;> first
    | rfl
    | exact absurd h2 h1
    | (rw [not_not] at h1; rw [← h1])

/-- `countReadyEvents` distributes over concatenation. -/
theorem countReadyEvents_append (a b : List CombinedEvent) :
    countReadyEvents (a ++ b) = countReadyEvents a + countReadyEvents b := by
  simp [countReadyEvents, List.filter_append]

/-- `countStatusEvents` distributes over concatenation. -/
theorem countStatusEvents_append (a b : List CombinedEvent) :
    countStatusEvents (a ++ b) = countStatusEvents a + countStatusEvents b := by
  simp [countStatusEvents, List.filter_append]

/-- Fan-out of a lone `readyStateChange` event through the printer's
combined listeners. -/
theorem fanout_ready (sys : PrinterSystem) (b : Bool) :
    applyCombinedListeners sys [CompEvent.readyStateChange b]
      = ({ sys with combinedReady := derivedReady sys },
         if sys.combinedReady = derivedReady sys then []
         else [CombinedEvent.combinedReadyStateChange (derivedReady sys)]) := by
  simp [applyCombinedListeners, updateCombinedReadyState_eq]

/-- Fan-out of a lone `statusChange` event through the printer's combined
listeners. -/
theorem fanout_status (sys : PrinterSystem) (s : MessageCode) :
    applyCombinedListeners sys [CompEvent.statusChange s]
      = ({ sys with combinedStatus := derivedStatus sys },
         if sys.combinedStatus = derivedStatus sys then []
         else [CombinedEvent.combinedStatusChange (derivedStatus sys)]) := by
  simp [applyCombinedListeners, updateCombinedStatus_eq]

/-- Fan-out of a `readyStateChange` followed by a `statusChange` (the order
`Component.updateState` emits them in). -/
theorem fanout_ready_status (sys : PrinterSystem) (b : Bool) (s : MessageCode) :
    applyCombinedListeners sys
        [CompEvent.readyStateChange b, CompEvent.statusChange s]
      = ({ sys with
            combinedReady := derivedReady sys
            combinedStatus := derivedStatus sys },
         (if sys.combinedReady = derivedReady sys then []
          else [CombinedEvent.combinedReadyStateChange (derivedReady sys)])
         ++ (if sys.combinedStatus = derivedStatus sys then []
          else [CombinedEvent.combinedStatusChange (derivedStatus sys)])) := by
  simp [applyCombinedListeners, updateCombinedReadyState_eq,
    updateCombinedStatus_eq, derivedStatus, derivedReady]

/-- The dispenser's own `statusChange` listener touches only the poller
handle and the latched `mediaPresent` flag: cores' state/status, both
combined caches, and the combined-event counts are untouched. -/
theorem dispenserStatusListener_proj (sys : PrinterSystem) (s : MessageCode) :
    (dispenserStatusListener sys s).1.printer = sys.printer
    ∧ (dispenserStatusListener sys s).1.feeder = sys.feeder
    ∧ (dispenserStatusListener sys s).1.dispenser.componentState
        = sys.dispenser.componentState
    ∧ (dispenserStatusListener sys s).1.dispenser.status = sys.dispenser.status
    ∧ (dispenserStatusListener sys s).1.combinedReady = sys.combinedReady
    ∧ (dispenserStatusListener sys s).1.combinedStatus = sys.combinedStatus
    ∧ countReadyEvents (dispenserStatusListener sys s).2 = 0
    ∧ countStatusEvents (dispenserStatusListener sys s).2 = 0 := by
  simp only [dispenserStatusListener]
  split_ifs <;> simp [countReadyEvents, countStatusEvents]

/-- Fan-out of a lone `readyStateChange` event through the dispenser's
listeners (only the printer's combined-ready listener reacts). -/
theorem dispenser_fanout_ready (sys : PrinterSystem) (b : Bool) :
    applyDispenserListeners sys [CompEvent.readyStateChange b]
      = ({ sys with combinedReady := derivedReady sys },
         if sys.combinedReady = derivedReady sys then []
         else [CombinedEvent.combinedReadyStateChange (derivedReady sys)]) := by
  simp [applyDispenserListeners, updateCombinedReadyState_eq]

/-- Fan-out of a lone `statusChange` event through the dispenser's
listeners: the `mediaPresent` listener runs first, then the combined
status is recomputed; combined readiness is untouched and exactly one
`combinedStatusChange` fires iff the derived status changed. -/
theorem dispenser_fanout_status (sys : PrinterSystem) (s : MessageCode) :
    (applyDispenserListeners sys [CompEvent.statusChange s]).1.combinedReady
        = sys.combinedReady
    ∧ (applyDispenserListeners sys [CompEvent.statusChange s]).1.combinedStatus
        = derivedStatus sys
    ∧ derivedReady (applyDispenserListeners sys [CompEvent.statusChange s]).1
        = derivedReady sys
    ∧ derivedStatus (applyDispenserListeners sys [CompEvent.statusChange s]).1
        = derivedStatus sys
    ∧ countReadyEvents (applyDispenserListeners sys [CompEvent.statusChange s]).2
        = 0
    ∧ countStatusEvents (applyDispenserListeners sys [CompEvent.statusChange s]).2
        = (if sys.combinedStatus = derivedStatus sys then 0 else 1) := by
  obtain ⟨hp, hf, hdc, hds, hcr, hcs, her, hes⟩ := dispenserStatusListener_proj sys s
  have hds' : derivedStatus (dispenserStatusListener sys s).1 = derivedStatus sys := by
    unfold derivedStatus
    rw [hp, hf, hds]
  have hdr' : derivedReady (dispenserStatusListener sys s).1 = derivedReady sys := by
    unfold derivedReady CompCore.ready
    rw [hp, hf, hdc]
  have key : applyDispenserListeners sys [CompEvent.statusChange s]
      = ({ (dispenserStatusListener sys s).1 with combinedStatus := derivedStatus sys },
         (dispenserStatusListener sys s).2
           ++ (if sys.combinedStatus = derivedStatus sys then []
               else [CombinedEvent.combinedStatusChange (derivedStatus sys)])) := by
    simp only [applyDispenserListeners]
    rw [updateCombinedStatus_eq, hds', hcs]
    simp
  rw [key]
  refine ⟨hcr, rfl, ?_, ?_, ?_, ?_⟩
  · rw [← hdr']
    unfold derivedReady CompCore.ready
    rfl
  · rw [← hds']
    unfold derivedStatus
    rfl
  · rw [countReadyEvents_append, her]
    split_ifs <;> simp [countReadyEvents]
  · rw [countStatusEvents_append, hes]
    split_ifs <;> simp [countStatusEvents]

/-- Fan-out of a `readyStateChange` followed by a `statusChange` through
the dispenser's listeners. -/
theorem dispenser_fanout_ready_status (sys : PrinterSystem) (b : Bool)
    (s : MessageCode) :
    (applyDispenserListeners sys
        [CompEvent.readyStateChange b, CompEvent.statusChange s]).1.combinedReady
        = derivedReady sys
    ∧ (applyDispenserListeners sys
        [CompEvent.readyStateChange b, CompEvent.statusChange s]).1.combinedStatus
        = derivedStatus sys
    ∧ derivedReady (applyDispenserListeners sys
        [CompEvent.readyStateChange b, CompEvent.statusChange s]).1
        = derivedReady sys
    ∧ derivedStatus (applyDispenserListeners sys
        [CompEvent.readyStateChange b, CompEvent.statusChange s]).1
        = derivedStatus sys
    ∧ countReadyEvents (applyDispenserListeners sys
        [CompEvent.readyStateChange b, CompEvent.statusChange s]).2
        = (if sys.combinedReady = derivedReady sys then 0 else 1)
    ∧ countStatusEvents (applyDispenserListeners sys
        [CompEvent.readyStateChange b, CompEvent.statusChange s]).2
        = (if sys.combinedStatus = derivedStatus sys then 0 else 1) := by
  have expand : applyDispenserListeners sys
      [CompEvent.readyStateChange b, CompEvent.statusChange s]
      = ((applyDispenserListeners (updateCombinedReadyState sys).1
            [CompEvent.statusChange s]).1,
         (updateCombinedReadyState sys).2
           ++ (applyDispenserListeners (updateCombinedReadyState sys).1
            [CompEvent.statusChange s]).2) := rfl
  set sys1 := (updateCombinedReadyState sys).1 with hsys1
  have hsys1e : sys1 = { sys with combinedReady := derivedReady sys } := by
    rw [hsys1, updateCombinedReadyState_eq]
  have hereq : derivedReady sys1 = derivedReady sys := by
    rw [hsys1e]
    unfold derivedReady
    rfl
  have heseq : derivedStatus sys1 = derivedStatus sys := by
    rw [hsys1e]
    unfold derivedStatus
    rfl
  have hcseq : sys1.combinedStatus = sys.combinedStatus := by
    rw [hsys1e]
  have hcreq : sys1.combinedReady = derivedReady sys := by
    rw [hsys1e]
  obtain ⟨k1, k2, k3, k4, k5, k6⟩ := dispenser_fanout_status sys1 s
  have hev1 : countReadyEvents (updateCombinedReadyState sys).2
      = (if sys.combinedReady = derivedReady sys then 0 else 1) := by
    rw [updateCombinedReadyState_eq]
    split_ifs <;> simp [countReadyEvents]
  have hev2 : countStatusEvents (updateCombinedReadyState sys).2 = 0 := by
    rw [updateCombinedReadyState_eq]
    split_ifs <;> simp [countStatusEvents]
  refine ⟨?_, ?_, ?_, ?_, ?_, ?_⟩
  · rw [expand]
    rw [k1, hcreq]
  · rw [expand]
    rw [k2, heseq]
  · rw [expand]
    rw [k3, hereq]
  · rw [expand]
    rw [k4, heseq]
  · rw [expand]
    simp only [countReadyEvents_append, hev1, k5, Nat.add_zero]
  · rw [expand]
    simp only [countStatusEvents_append, hev2, k6, hcseq, heseq, Nat.zero_add]

/-- The four possible event emissions of one `Component.updateState` call:
no event (state and status both unchanged), a lone ready change, a lone
status change, or both in that order.  When no ready event fires the
cached component state is untouched; when no status event fires the
cached status is untouched. -/
theorem updateState_shape (c : CompCore) (m : CompMsg) :
    ((updateState c m).2 = []
      ∧ (updateState c m).1.componentState = c.componentState
      ∧ (updateState c m).1.status = c.status)
    ∨ (∃ b, (updateState c m).2 = [CompEvent.readyStateChange b]
      ∧ (updateState c m).1.status = c.status)
    ∨ ((updateState c m).2 = [CompEvent.statusChange m.messageCode]
      ∧ (updateState c m).1.componentState = c.componentState
      ∧ (updateState c m).1.status = m.messageCode)
    ∨ (∃ b, (updateState c m).2
        = [CompEvent.readyStateChange b, CompEvent.statusChange m.messageCode]
      ∧ (updateState c m).1.status = m.messageCode) := by
  simp only [updateState]
  split_ifs <;> simp

/-- Core step lemma for the printer/feeder fan-out: if the aggregation
invariant held before a component update, then after fanning the update's
events out through the combined listeners the invariant holds again, and
exactly one combined-ready (resp. combined-status) event fired iff the
combined cache actually changed.  `sys'` is the system with the one
updated core swapped in (caches untouched); the shape hypothesis captures
which events fired and that an unfired event leaves the corresponding
derived value unchanged. -/
theorem fanout_step (sys sys' : PrinterSystem) (evs : List CompEvent)
    (mc : MessageCode)
    (hr : sys.combinedReady = derivedReady sys)
    (hs : sys.combinedStatus = derivedStatus sys)
    (hcr : sys'.combinedReady = sys.combinedReady)
    (hcs : sys'.combinedStatus = sys.combinedStatus)
    (hshape : (evs = [] ∧ derivedReady sys' = derivedReady sys
        ∧ derivedStatus sys' = derivedStatus sys)
      ∨ (∃ b, evs = [CompEvent.readyStateChange b]
        ∧ derivedStatus sys' = derivedStatus sys)
      ∨ (evs = [CompEvent.statusChange mc]
        ∧ derivedReady sys' = derivedReady sys)
      ∨ (∃ b, evs = [CompEvent.readyStateChange b,
          CompEvent.statusChange mc])) :
    CombinedInv (applyCombinedListeners sys' evs).1
    ∧ countReadyEvents (applyCombinedListeners sys' evs).2
        = (if (applyCombinedListeners sys' evs).1.combinedReady
            = sys.combinedReady then 0 else 1)
    ∧ countStatusEvents (applyCombinedListeners sys' evs).2
        = (if (applyCombinedListeners sys' evs).1.combinedStatus
            = sys.combinedStatus then 0 else 1) := by
  rcases hshape with ⟨he, hdr, hds⟩ | ⟨b, he, hds⟩ | ⟨he, hdr⟩ | ⟨b, he⟩
  · subst he
    refine ⟨⟨?_, ?_⟩, ?_, ?_⟩
    · show sys'.combinedReady = derivedReady sys'
      rw [hcr, hdr, ← hr]
    · show sys'.combinedStatus = derivedStatus sys'
      rw [hcs, hds, ← hs]
    · simp [applyCombinedListeners, countReadyEvents, hcr]
    · simp [applyCombinedListeners, countStatusEvents, hcs]
  · subst he
    rw [fanout_ready]
    refine ⟨⟨?_, ?_⟩, ?_, ?_⟩
    · simp [derivedReady]
    · show sys'.combinedStatus = derivedStatus _
      rw [hcs, hs, ← hds]
      simp [derivedStatus]
    · by_cases h : sys.combinedReady = derivedReady sys'
      · rw [if_pos (hcr.trans h)]
        simp [countReadyEvents, h.symm]
      · rw [if_neg (fun hx => h (hcr ▸ hx))]
        simp only [countReadyEvents, List.filter]
        rw [if_neg (fun hx => h hx.symm)]
        rfl
    · split_ifs <;> simp [countStatusEvents, hcs]
  · subst he
    rw [fanout_status]
    refine ⟨⟨?_, ?_⟩, ?_, ?_⟩
    · show sys'.combinedReady = derivedReady _
      rw [hcr, hr, ← hdr]
      simp [derivedReady]
    · simp [derivedStatus]
    · split_ifs <;> simp [countReadyEvents, hcr]
    · by_cases h : sys.combinedStatus = derivedStatus sys'
      · rw [if_pos (hcs.trans h)]
        simp [countStatusEvents, h.symm]
      · rw [if_neg (fun hx => h (hcs ▸ hx))]
        simp only [countStatusEvents, List.filter]
        rw [if_neg (fun hx => h hx.symm)]
        rfl
  · subst he
    rw [fanout_ready_status]
    refine ⟨⟨?_, ?_⟩, ?_, ?_⟩
    · simp [derivedReady]
    · simp [derivedStatus]
    · rw [countReadyEvents_append]
      have h2 : countReadyEvents
          (if sys'.combinedStatus = derivedStatus sys' then []
           else [CombinedEvent.combinedStatusChange (derivedStatus sys')]) = 0 := by
        split_ifs <;> simp [countReadyEvents]
      rw [h2, Nat.add_zero]
      by_cases h : sys.combinedReady = derivedReady sys'
      · rw [if_pos (hcr.trans h)]
        simp [countReadyEvents, h.symm]
      · rw [if_neg (fun hx => h (hcr ▸ hx))]
        simp only [countReadyEvents, List.filter]
        rw [if_neg (fun hx => h hx.symm)]
        rfl
    · rw [countStatusEvents_append]
      have h2 : countStatusEvents
          (if sys'.combinedReady = derivedReady sys' then []
           else [CombinedEvent.combinedReadyStateChange (derivedReady sys')]) = 0 := by
        split_ifs <;> simp [countStatusEvents]
      rw [h2, Nat.zero_add]
      by_cases h : sys.combinedStatus = derivedStatus sys'
      · rw [if_pos (hcs.trans h)]
        simp [countStatusEvents, h.symm]
      · rw [if_neg (fun hx => h (hcs ▸ hx))]
        simp only [countStatusEvents, List.filter]
        rw [if_neg (fun hx => h hx.symm)]
        rfl

/-- The dispenser-side counterpart of `fanout_step`: the same
conclusions with the dispenser's listener chain (its own `mediaPresent`
listener plus the printer's combined listeners). -/
theorem fanout_step_disp (sys sys' : PrinterSystem) (evs : List CompEvent)
    (mc : MessageCode)
    (hr : sys.combinedReady = derivedReady sys)
    (hs : sys.combinedStatus = derivedStatus sys)
    (hcr : sys'.combinedReady = sys.combinedReady)
    (hcs : sys'.combinedStatus = sys.combinedStatus)
    (hshape : (evs = [] ∧ derivedReady sys' = derivedReady sys
        ∧ derivedStatus sys' = derivedStatus sys)
      ∨ (∃ b, evs = [CompEvent.readyStateChange b]
        ∧ derivedStatus sys' = derivedStatus sys)
      ∨ (evs = [CompEvent.statusChange mc]
        ∧ derivedReady sys' = derivedReady sys)
      ∨ (∃ b, evs = [CompEvent.readyStateChange b,
          CompEvent.statusChange mc])) :
    CombinedInv (applyDispenserListeners sys' evs).1
    ∧ countReadyEvents (applyDispenserListeners sys' evs).2
        = (if (applyDispenserListeners sys' evs).1.combinedReady
            = sys.combinedReady then 0 else 1)
    ∧ countStatusEvents (applyDispenserListeners sys' evs).2
        = (if (applyDispenserListeners sys' evs).1.combinedStatus
            = sys.combinedStatus then 0 else 1) := by
  rcases hshape with ⟨he, hdr, hds⟩ | ⟨b, he, hds⟩ | ⟨he, hdr⟩ | ⟨b, he⟩
  · subst he
    refine ⟨⟨?_, ?_⟩, ?_, ?_⟩
    · show sys'.combinedReady = derivedReady sys'
      rw [hcr, hdr, ← hr]
    · show sys'.combinedStatus = derivedStatus sys'
      rw [hcs, hds, ← hs]
    · simp [applyDispenserListeners, countReadyEvents, hcr]
    · simp [applyDispenserListeners, countStatusEvents, hcs]
  · subst he
    rw [dispenser_fanout_ready]
    refine ⟨⟨?_, ?_⟩, ?_, ?_⟩
    · simp [derivedReady]
    · show sys'.combinedStatus = derivedStatus _
      rw [hcs, hs, ← hds]
      simp [derivedStatus]
    · by_cases h : sys.combinedReady = derivedReady sys'
      · rw [if_pos (hcr.trans h)]
        simp [countReadyEvents, h.symm]
      · rw [if_neg (fun hx => h (hcr ▸ hx))]
        simp only [countReadyEvents, List.filter]
        rw [if_neg (fun hx => h hx.symm)]
        rfl
    · split_ifs <;> simp [countStatusEvents, hcs]
  · subst he
    obtain ⟨k1, k2, k3, k4, k5, k6⟩ := dispenser_fanout_status sys' mc
    refine ⟨⟨?_, ?_⟩, ?_, ?_⟩
    · rw [k1, hcr, hr, ← hdr, ← k3]
    · rw [k2, ← k4]
    · have hcond : (applyDispenserListeners sys'
          [CompEvent.statusChange mc]).1.combinedReady = sys.combinedReady := by
        rw [k1, hcr]
      rw [k5, if_pos hcond]
    · rw [k6, k2]
      by_cases h : sys.combinedStatus = derivedStatus sys'
      · rw [if_pos (hcs.trans h), if_pos h.symm]
      · rw [if_neg (fun hx => h (hcs ▸ hx)), if_neg (fun hx => h hx.symm)]
  · subst he
    obtain ⟨k1, k2, k3, k4, k5, k6⟩ := dispenser_fanout_ready_status sys' b mc
    refine ⟨⟨?_, ?_⟩, ?_, ?_⟩
    · rw [k1, ← k3]
    · rw [k2, ← k4]
    · rw [k5, k1]
      by_cases h : sys.combinedReady = derivedReady sys'
      · rw [if_pos (hcr.trans h), if_pos h.symm]
      · rw [if_neg (fun hx => h (hcr ▸ hx)), if_neg (fun hx => h hx.symm)]
    · rw [k6, k2]
      by_cases h : sys.combinedStatus = derivedStatus sys'
      · rw [if_pos (hcs.trans h), if_pos h.symm]
      · rw [if_neg (fun hx => h (hcs ▸ hx)), if_neg (fun hx => h hx.symm)]

/-- Swapping in a printer core with the same component state leaves the
derived readiness unchanged. -/
theorem derivedReady_printer (sys : PrinterSystem) (p' : CompCore)
    (h : p'.componentState = sys.printer.componentState) :
    derivedReady { sys with printer := p' } = derivedReady sys := by
  simp [derivedReady, CompCore.ready, h]

/-- Swapping in a feeder core with the same component state leaves the
derived readiness unchanged. -/
theorem derivedReady_feeder (sys : PrinterSystem) (f' : CompCore)
    (h : f'.componentState = sys.feeder.componentState) :
    derivedReady { sys with feeder := f' } = derivedReady sys := by
  simp [derivedReady, CompCore.ready, h]

/-- Swapping in a dispenser core with the same component state leaves the
derived readiness unchanged. -/
theorem derivedReady_dispenser (sys : PrinterSystem) (d' : CompCore)
    (h : d'.componentState = sys.dispenser.componentState) :
    derivedReady { sys with dispenser := d' } = derivedReady sys := by
  simp [derivedReady, CompCore.ready, h]

/-- Swapping in a printer core with the same status leaves the derived
combined status unchanged. -/
theorem derivedStatus_printer (sys : PrinterSystem) (p' : CompCore)
    (h : p'.status = sys.printer.status) :
    derivedStatus { sys with printer := p' } = derivedStatus sys := by
  simp [derivedStatus, h]

/-- Swapping in a feeder core with the same status leaves the derived
combined status unchanged. -/
theorem derivedStatus_feeder (sys : PrinterSystem) (f' : CompCore)
    (h : f'.status = sys.feeder.status) :
    derivedStatus { sys with feeder := f' } = derivedStatus sys := by
  simp [derivedStatus, h]

/-- Swapping in a dispenser core with the same status leaves the derived
combined status unchanged. -/
theorem derivedStatus_dispenser (sys : PrinterSystem) (d' : CompCore)
    (h : d'.status = sys.dispenser.status) :
    derivedStatus { sys with dispenser := d' } = derivedStatus sys := by
  simp [derivedStatus, h]

/-- C6: for a composite printer with linked feeder and dispenser,
`combinedReady` always equals the conjunction of the three readiness
values and `combinedStatus` always equals the first non-OK status among
printer, feeder, dispenser (OK when all are OK) — the invariant holds
from construction and is preserved by every inbound frame processed by
any of the three — and each processed frame emits a
`combinedReadyStateChange` (resp. `combinedStatusChange`) event exactly
once when the derived value actually changes and never otherwise. -/
theorem C6_combined_aggregation :
    (∀ sys t m, CombinedInv sys →
      CombinedInv (processMessage sys t m).1
      ∧ countReadyEvents (processMessage sys t m).2.1
          = (if (processMessage sys t m).1.combinedReady = sys.combinedReady
             then 0 else 1)
      ∧ countStatusEvents (processMessage sys t m).2.1
          = (if (processMessage sys t m).1.combinedStatus = sys.combinedStatus
             then 0 else 1))
    ∧ (∀ p f d mp, CombinedInv (mkPrinterSystem p f d mp)) := by
  constructor
  · rintro sys t m ⟨hr, hs⟩
    cases t with
    | printer =>
        refine fanout_step sys
          { sys with printer := (updateState sys.printer (printerRemap m)).1 }
          (updateState sys.printer (printerRemap m)).2
          (printerRemap m).messageCode hr hs rfl rfl ?_
        rcases updateState_shape sys.printer (printerRemap m) with
          ⟨he, hc1, hs1⟩ | ⟨b, he, hs1⟩ | ⟨he, hc1, hs1⟩ | ⟨b, he, hs1⟩
        · exact Or.inl ⟨he, derivedReady_printer sys _ hc1,
            derivedStatus_printer sys _ hs1⟩
        · exact Or.inr (Or.inl ⟨b, he, derivedStatus_printer sys _ hs1⟩)
        · exact Or.inr (Or.inr (Or.inl ⟨he, derivedReady_printer sys _ hc1⟩))
        · exact Or.inr (Or.inr (Or.inr ⟨b, he⟩))
    | feeder =>
        refine fanout_step sys
          { sys with feeder := (updateState sys.feeder m).1 }
          (updateState sys.feeder m).2 m.messageCode hr hs rfl rfl ?_
        rcases updateState_shape sys.feeder m with
          ⟨he, hc1, hs1⟩ | ⟨b, he, hs1⟩ | ⟨he, hc1, hs1⟩ | ⟨b, he, hs1⟩
        · exact Or.inl ⟨he, derivedReady_feeder sys _ hc1,
            derivedStatus_feeder sys _ hs1⟩
        · exact Or.inr (Or.inl ⟨b, he, derivedStatus_feeder sys _ hs1⟩)
        · exact Or.inr (Or.inr (Or.inl ⟨he, derivedReady_feeder sys _ hc1⟩))
        · exact Or.inr (Or.inr (Or.inr ⟨b, he⟩))
    | dispenser =>
        refine fanout_step_disp sys
          { sys with dispenser := (updateState sys.dispenser m).1 }
          (updateState sys.dispenser m).2 m.messageCode hr hs rfl rfl ?_
        rcases updateState_shape sys.dispenser m with
          ⟨he, hc1, hs1⟩ | ⟨b, he, hs1⟩ | ⟨he, hc1, hs1⟩ | ⟨b, he, hs1⟩
        · exact Or.inl ⟨he, derivedReady_dispenser sys _ hc1,
            derivedStatus_dispenser sys _ hs1⟩
        · exact Or.inr (Or.inl ⟨b, he, derivedStatus_dispenser sys _ hs1⟩)
        · exact Or.inr (Or.inr (Or.inl ⟨he, derivedReady_dispenser sys _ hc1⟩))
        · exact Or.inr (Or.inr (Or.inr ⟨b, he⟩))
  · intro p f d mp
    constructor
    · simp [mkPrinterSystem, updateCombinedReadyState_eq,
        updateCombinedStatus_eq, derivedReady]
    · simp [mkPrinterSystem, updateCombinedReadyState_eq,
        updateCombinedStatus_eq, derivedStatus]

/-- Witness for C6 at a concrete input: the constructor-built idle system
satisfies the invariant; processing a `READY/OK` report on the feeder
preserves it, emits no combined-ready event (the printer and dispenser
are still unavailable, so the conjunction stays false) and no
combined-status event. -/
theorem C6_witness :
    CombinedInv samplePrinterSystem
    ∧ CombinedInv (processMessage samplePrinterSystem .feeder sampleReadyMsg).1
    ∧ countReadyEvents
        (processMessage samplePrinterSystem .feeder sampleReadyMsg).2.1
        = (if (processMessage samplePrinterSystem .feeder sampleReadyMsg).1.combinedReady
            = samplePrinterSystem.combinedReady then 0 else 1)
    ∧ countStatusEvents
        (processMessage samplePrinterSystem .feeder sampleReadyMsg).2.1
        = (if (processMessage samplePrinterSystem .feeder sampleReadyMsg).1.combinedStatus
            = samplePrinterSystem.combinedStatus then 0 else 1) := by
  have hinv : CombinedInv samplePrinterSystem := by decide
  have hstep := C6_combined_aggregation.1 samplePrinterSystem .feeder
    sampleReadyMsg hinv
  exact ⟨hinv, hstep.1, hstep.2.1, hstep.2.2⟩

/-- C7: a platform message carrying the `PeripheralsSend` directive,
message code `TIMEOUT` and component state `UNAVAILABLE` is remapped to
`READY` before the base state machine runs — `Printer.updateState`
behaves exactly like the base machine on the remapped message — so the
printer ends up `READY`, not `UNAVAILABLE`. -/
theorem C7_printer_timeout_remap (p : CompCore) (m : CompMsg)
    (h1 : m.platformDirective = some Directive.PeripheralsSend)
    (h2 : m.messageCode = .TIMEOUT)
    (h3 : m.componentState = some ComponentState.UNAVAILABLE) :
    printerRemap m = { m with componentState := some ComponentState.READY }
    ∧ (printerUpdateState p m).1
        = (updateState p { m with componentState := some ComponentState.READY }).1
    ∧ (printerUpdateState p m).2.1
        = (updateState p { m with componentState := some ComponentState.READY }).2
    ∧ (printerUpdateState p m).1.componentState = ComponentState.READY
    ∧ (printerUpdateState p m).1.ready = true := by
  have hremap : printerRemap m
      = { m with componentState := some ComponentState.READY } :=
    if_pos ⟨h1, h2, h3⟩
  have hready : (updateState p
      { m with componentState := some ComponentState.READY }).1.componentState
      = ComponentState.READY := by
    simp only [updateState]
    split_ifs with hne <;> simp_all
  refine ⟨hremap, ?_, ?_, ?_, ?_⟩
  · show (updateState p (printerRemap m)).1 = _
    rw [hremap]
  · show (updateState p (printerRemap m)).2 = _
    rw [hremap]
  · show (updateState p (printerRemap m)).1.componentState = _
    rw [hremap, hready]
  · show CompCore.ready (updateState p (printerRemap m)).1 = true
    unfold CompCore.ready
    rw [hremap, hready]
    rfl

/-- Witness for C7 at a concrete input: the CUTnHOLD shape processed on an
unavailable printer leaves it READY. -/
theorem C7_witness :
    sampleTimeoutMsg.platformDirective = some Directive.PeripheralsSend
    ∧ sampleTimeoutMsg.messageCode = .TIMEOUT
    ∧ sampleTimeoutMsg.componentState = some ComponentState.UNAVAILABLE
    ∧ (printerUpdateState sampleCore sampleTimeoutMsg).1.componentState
        = ComponentState.READY :=
  ⟨rfl, rfl, rfl,
    (C7_printer_timeout_remap sampleCore sampleTimeoutMsg rfl rfl rfl).2.2.2.1⟩

end Cuss2

